import Mathlib

/-!
Shallow embedding of `pipelinewise/fastsync/commons/tap_mysql.py`
(class `FastSyncTapMySql`): connection-parameter resolution, the
retrying `query` method, primary-server id/uuid resolution, GTID
position resolution for MariaDB and MySQL, binlog coordinates,
session-initialization SQL execution, the per-column safe-SQL-value
decision table, and primary-key extraction.

Machine-level I/O (the pymysql driver) is modelled by explicit inputs:
each embedded function takes the result of the server round trip it
performs as a parameter, and stateful effects (connection open/close,
retries) are returned as explicit event traces.
-/

namespace TapMySql

/-- The resolved connection parameters returned by
`get_connection_parameters` (the dict of host, port, user, password,
charset). Ports are modelled as integers; the source applies `int(...)`
to the configured value. -/
structure ConnParams where
  host : String
  port : Int
  user : String
  password : String
  charset : String
  deriving Repr, DecidableEq

/-- The connection configuration dictionary, with the optional
replica overrides modelled as `Option` fields (a key absent from the
dict is `none`). Only the keys read by `get_connection_parameters`
are carried. -/
structure ConnectionConfig where
  host : String
  port : Int
  user : String
  password : String
  replica_host : Option String
  replica_port : Option Int
  replica_user : Option String
  replica_password : Option String
  charset : String
  deriving Repr, DecidableEq

/-- `FastSyncTapMySql.get_connection_parameters`: selects the primary
credentials when `prioritize_primary` is set, otherwise the replica
credentials with fallback to the primary ones key by key;
`is_replica` is true exactly when `replica_host` is present and the
primary is not prioritized. -/
def get_connection_parameters (cfg : ConnectionConfig)
    (prioritize_primary : Bool) : ConnParams × Bool :=
  if prioritize_primary then
    (⟨cfg.host, cfg.port, cfg.user, cfg.password, cfg.charset⟩, false)
  else
    let is_replica := cfg.replica_host.isSome
    (⟨cfg.replica_host.getD cfg.host,
      cfg.replica_port.getD cfg.port,
      cfg.replica_user.getD cfg.user,
      cfg.replica_password.getD cfg.password,
      cfg.charset⟩, is_replica)

/-- The two exception classes `query` distinguishes:
`connectivity` stands for `pymysql.InterfaceError | OperationalError`
(the classes caught by the retry handler), `logic` for every other
exception raised by `cur.execute`. -/
inductive QueryErr where
  | connectivity
  | logic
  deriving Repr, DecidableEq

/-- The session a statement is executed on: `default` is `self.conn`
(the buffered session), `unbuffered` is `self.conn_unbuffered`, `aux`
is a caller-supplied short-lived auxiliary connection. -/
inductive Session where
  | default
  | unbuffered
  | aux
  deriving Repr, DecidableEq

/-- Observable effects of a `query` call: an execution attempt on a
session, the silent `close_connections(silent=True)` of both standing
sessions, and the `open_connections()` reopen. -/
inductive Event where
  | attempt (s : Session)
  | closeSilent
  | reopen
  deriving Repr, DecidableEq

/-- `FastSyncTapMySql.query`: the `conn is None` default to
`self.conn`, the try/except over `(InterfaceError, OperationalError)`,
and the recursive retry with `n_retry - 1` that does NOT forward the
`conn` argument (the retried statement runs on the freshly opened
buffered session). `outcome k` is the result the server gives the
k-th execution attempt; the returned trace lists the attempts and
reconnect events in order. -/
def query (outcome : Nat → Except QueryErr α) (k : Nat)
    (conn : Option Session) (n_retry : Nat) :
    Except QueryErr α × List Event :=
  let target := conn.getD Session.default
  match outcome k with
  | Except.ok r => (Except.ok r, [Event.attempt target])
  | Except.error QueryErr.logic =>
      (Except.error QueryErr.logic, [Event.attempt target])
  | Except.error QueryErr.connectivity =>
      match n_retry with
      | 0 => (Except.error QueryErr.connectivity, [Event.attempt target])
      | n + 1 =>
          let rest := query outcome (k + 1) none n
          (rest.1,
            Event.attempt target :: Event.closeSilent :: Event.reopen
              :: rest.2)

/-- Outcome of one of the primary-id/uuid resolution methods: either a
propagated exception (`query` raised after exhausting its retries, or
`result[0]` raised `IndexError` on an empty result), or the value. -/
inductive RunErr where
  | query (e : QueryErr)
  | indexError
  deriving Repr, DecidableEq

/-- What happened to the short-lived auxiliary connection of
`__get_primary_server_uuid` / `__get_primary_server_id`: whether it
was opened (it is, exactly when `is_replica`), and whether
`conn.close()` ran before the method returned. -/
structure AuxTrace where
  opened : Bool
  closed : Bool
  deriving Repr, DecidableEq

/-- `FastSyncTapMySql.__get_primary_server_uuid`: opens an auxiliary
connection against primary parameters when on a replica, runs the
server-uuid query through `self.query` (default `n_retry=1`), closes
the auxiliary connection only after `self.query` returns, then
indexes `result[0]`. `outcome k` is the server response to the k-th
execution attempt of the underlying query call; a row is modelled as
the value of its `server_uuid` field, `none` standing for an empty
result list. -/
def get_primary_server_uuid (is_replica : Bool)
    (outcome : Nat → Except QueryErr (Option String)) :
    Except RunErr String × AuxTrace :=
  let opened := is_replica
  let conn := if is_replica then some Session.aux else none
  match (query outcome 0 conn 1).1 with
  | Except.error e => (Except.error (RunErr.query e), ⟨opened, false⟩)
  | Except.ok rows =>
      match rows with
      | none => (Except.error RunErr.indexError, ⟨opened, opened⟩)
      | some u => (Except.ok u, ⟨opened, opened⟩)

/-- `FastSyncTapMySql.__get_primary_server_id`: identical control flow
to `__get_primary_server_uuid`, reading the integer `server_id` field
instead. -/
def get_primary_server_id (is_replica : Bool)
    (outcome : Nat → Except QueryErr (Option Int)) :
    Except RunErr Int × AuxTrace :=
  let opened := is_replica
  let conn := if is_replica then some Session.aux else none
  match (query outcome 0 conn 1).1 with
  | Except.error e => (Except.error (RunErr.query e), ⟨opened, false⟩)
  | Except.ok rows =>
      match rows with
      | none => (Except.error RunErr.indexError, ⟨opened, opened⟩)
      | some i => (Except.ok i, ⟨opened, opened⟩)

/-- Python `str.split(sep)` on the character list of a string: every
occurrence of the separator starts a new field, the empty string
yields one empty field. The recursion is structural so that concrete
inputs evaluate inside the kernel. The `[]` branch of the inner match
is unreachable (the function never returns an empty list). -/
def pySplitChars (sep : Char) : List Char → List (List Char)
  | [] => [[]]
  | c :: cs =>
      if c = sep then [] :: pySplitChars sep cs
      else
        match pySplitChars sep cs with
        | [] => [[c]]
        | r :: rs => (c :: r) :: rs

/-- Python `str.split(sep)` for a single-character separator. -/
def pySplit (sep : Char) (s : String) : List String :=
  (pySplitChars sep s.data).map String.mk

/-- Python `str.strip()`: whitespace removed from both ends. -/
def pyStrip (s : String) : String :=
  String.mk
    (((s.data.dropWhile Char.isWhitespace).reverse.dropWhile
        Char.isWhitespace).reverse)

/-- The comma-separated GTID set split into entries, each stripped of
surrounding whitespace: `gtids.split(",")` followed by `.strip()` on
every entry. -/
def gtidEntries (gtids : String) : List String :=
  (pySplit ',' gtids).map pyStrip

/-- Whether one stripped MariaDB GTID entry is accepted by the loop of
`__find_mariadb_gtid_pos`: non-empty, splits on `-` into exactly three
parts, and the middle part equals the resolved primary server id. -/
def mariadbGtidMatch (server_id g : String) : Bool :=
  g ≠ "" && (pySplit '-' g).length == 3
    && (pySplit '-' g).getD 1 "" == server_id

/-- Whether one stripped MySQL GTID entry is accepted by the loop of
`__find_mysql_gtid_pos`: non-empty, splits on `:` into exactly two
parts, and the first part equals the resolved primary server UUID. -/
def mysqlGtidMatch (server_uuid g : String) : Bool :=
  g ≠ "" && (pySplit ':' g).length == 2
    && (pySplit ':' g).getD 0 "" == server_uuid

/-- The `for gtid in gtids.split(","):` loop of
`__find_mariadb_gtid_pos`, with its three `continue` branches (empty
entry, wrong segment count, non-matching server id) and the `return`
on the first match. -/
def scanMariadbGtids (server_id : String) : List String → Option String
  | [] => none
  | g :: rest =>
      if g = "" then scanMariadbGtids server_id rest
      else if (pySplit '-' g).length ≠ 3 then scanMariadbGtids server_id rest
      else if (pySplit '-' g).getD 1 "" = server_id then some g
      else scanMariadbGtids server_id rest

/-- The `for gtid in gtids.split(","):` loop of
`__find_mysql_gtid_pos`, with its `continue` branches and the `return`
on the first match. -/
def scanMysqlGtids (server_uuid : String) : List String → Option String
  | [] => none
  | g :: rest =>
      if g = "" then scanMysqlGtids server_uuid rest
      else if (pySplit ':' g).length ≠ 2 then scanMysqlGtids server_uuid rest
      else if (pySplit ':' g).getD 0 "" = server_uuid then some g
      else scanMysqlGtids server_uuid rest

/-- The `{"gtid": gtid}` dictionary returned by the GTID resolvers. -/
structure GtidPos where
  gtid : String
  deriving Repr, DecidableEq

/-- `FastSyncTapMySql.__find_mariadb_gtid_pos` after the position
query: `result` is the value of `current_gtids` in the first row
(`none` for an empty result list), `server_id` is
`str(self.__get_primary_server_id())`. Raised exception messages are
returned as `Except.error` strings. -/
def find_mariadb_gtid_pos (result : Option String) (server_id : String) :
    Except String GtidPos :=
  match result with
  | none => Except.error "GTID is not enabled."
  | some gtids =>
      match scanMariadbGtids server_id (gtidEntries gtids) with
      | some g => Except.ok ⟨g⟩
      | none => Except.error "No suitable GTID was found."

/-- `FastSyncTapMySql.__find_mysql_gtid_pos`: `modeResult` is the
`gtid_mode` query result (`none` = empty result list, `some v` = first
row whose `.get("gtid_mode")` is `v`), `execResult` the
`@@GLOBAL.gtid_executed` result, `server_uuid` the resolved primary
server UUID. -/
def find_mysql_gtid_pos (modeResult : Option (Option String))
    (execResult : Option String) (server_uuid : String) :
    Except String GtidPos :=
  match modeResult with
  | some (some "ON") =>
      match execResult with
      | none =>
          Except.error "No GTID was found with \"@@GLOBAL.gtid_executed\"."
      | some gtids =>
          match scanMysqlGtids server_uuid (gtidEntries gtids) with
          | some g => Except.ok ⟨g⟩
          | none => Except.error "No suitable GTID was found."
  | _ => Except.error "GTID mode is not enabled."

/-- One row of a `SHOW SLAVE STATUS` / `SHOW MASTER STATUS` result,
restricted to the keys `_get_binlog_coordinates` reads with `.get`;
an absent key is `none`. -/
structure StatusRow where
  File : Option String
  Position : Option Int
  Master_Log_File : Option String
  Read_Master_Log_Pos : Option Int
  version : Option Int
  deriving Repr, DecidableEq

/-- The `{"log_file": ..., "log_pos": ..., "version": ...}` dictionary
returned by `_get_binlog_coordinates`; file and position keep the
`Option` of `.get` (which can yield `None`). -/
structure BinlogCoordinates where
  log_file : Option String
  log_pos : Option Int
  version : Int
  deriving Repr, DecidableEq

/-- `FastSyncTapMySql._get_binlog_coordinates` after the status query:
on a replica the coordinates come from `Master_Log_File` /
`Read_Master_Log_Pos`, on a primary from `File` / `Position`; the
`version` key defaults to 1; an empty result raises. -/
def get_binlog_coordinates (is_replica : Bool)
    (result : List StatusRow) : Except String BinlogCoordinates :=
  match result with
  | [] => Except.error "MySQL binary logging is not enabled."
  | row :: _ =>
      if is_replica then
        Except.ok ⟨row.Master_Log_File, row.Read_Master_Log_Pos,
          row.version.getD 1⟩
      else
        Except.ok ⟨row.File, row.Position, row.version.getD 1⟩

/-- The log-position value `fetch_current_log_pos` returns: either a
GTID dictionary or binlog coordinates. -/
inductive LogPosition where
  | gtid (g : GtidPos)
  | binlog (c : BinlogCoordinates)
  deriving Repr, DecidableEq

/-- The server-side responses consumed by `fetch_current_log_pos` and
the resolvers it dispatches to, one field per query round trip. -/
structure ServerState where
  gtid_slave_pos : Option String
  gtid_current_pos : Option String
  gtid_mode : Option (Option String)
  gtid_executed : Option String
  primary_server_id : Int
  primary_server_uuid : String
  status_rows : List StatusRow

/-- `FastSyncTapMySql.fetch_current_log_pos` with its dispatch through
`_get_current_gtid_pos`: GTID resolution when `use_gtid` is
configured (MariaDB vs MySQL dialect by the engine flag, the MariaDB
position variable chosen by `is_replica`), binlog coordinates
otherwise. `str(...)` of the resolved primary server id is `toString`. -/
def fetch_current_log_pos (use_gtid is_mariadb is_replica : Bool)
    (st : ServerState) : Except String LogPosition :=
  if use_gtid then
    if is_mariadb then
      (find_mariadb_gtid_pos
        (if is_replica then st.gtid_slave_pos else st.gtid_current_pos)
        (toString st.primary_server_id)).map LogPosition.gtid
    else
      (find_mysql_gtid_pos st.gtid_mode st.gtid_executed
        st.primary_server_uuid).map LogPosition.gtid
  else
    (get_binlog_coordinates is_replica st.status_rows).map LogPosition.binlog

/-- How the server answers one session-initialization statement on one
session, as surfaced by `self.query`: success, or the
`pymysql.err.InternalError` raised for a statement the server rejects
as invalid (the only exception class `run_session_sqls` catches). -/
inductive SqlOutcome where
  | ok
  | internalError
  deriving Repr, DecidableEq

/-- The observable result of `run_session_sqls`: the sequence of
(statement, session) executions that were attempted, in order, and
the warning messages collected. -/
structure SessionSetupRun where
  executed : List (String × Session)
  warnings : List String
  deriving Repr, DecidableEq

/-- The warning appended when a session statement raises
`InternalError`. -/
def sessionWarning (sql : String) : String :=
  "Could not set session variable: " ++ sql

/-- `FastSyncTapMySql.run_session_sqls`: each statement is run on the
buffered session then on the unbuffered session inside one `try`; an
`InternalError` from either run appends a warning and moves on to the
next statement (so an `InternalError` on the buffered run skips the
unbuffered run of that same statement only). `behavior` gives the
server response per statement and session. -/
def run_session_sqls (behavior : String → Session → SqlOutcome) :
    List String → SessionSetupRun
  | [] => ⟨[], []⟩
  | sql :: rest =>
      let tail := run_session_sqls behavior rest
      match behavior sql Session.default with
      | SqlOutcome.internalError =>
          ⟨(sql, Session.default) :: tail.executed,
            sessionWarning sql :: tail.warnings⟩
      | SqlOutcome.ok =>
          match behavior sql Session.unbuffered with
          | SqlOutcome.internalError =>
              ⟨(sql, Session.default) :: (sql, Session.unbuffered)
                  :: tail.executed,
                sessionWarning sql :: tail.warnings⟩
          | SqlOutcome.ok =>
              ⟨(sql, Session.default) :: (sql, Session.unbuffered)
                  :: tail.executed,
                tail.warnings⟩

/-- The decimal scale of the configured numeric bound, as computed in
`get_table_columns`: `len(max_num.split(".")[1]) if "." in max_num
else 0` (the number of characters after the first decimal point in
the textual form of the bound, 0 if there is none). -/
def decimalsOf (max_num : String) : Nat :=
  if max_num.data.contains '.' then
    ((pySplit '.' max_num).getD 1 "").length
  else 0

/-- The shape of the safe-SQL-value expression the `CASE` of
`get_table_columns` produces for one column. Each constructor stands
for one exact SQL template of the source:
`hexStripNewline` = REPLACE(hex(col), newline, space);
`hexTrimZeros` = hex after trimming trailing 0x00 bytes, newline and
carriage-return stripped; `castUnsigned` = cast(col AS unsigned);
`dateNullif` = nullif of the zero-date sentinel with a CAST to the
configured date render type; `datetimeNullif` = nullif of the
zero-datetime sentinel; `tinyint1Bool` = CASE null/0/else-1;
`geoJson` = ST_AsGeoJSON(col); `rawHashHex` = hex with
newline/carriage-return stripped; `clamp b d` =
GREATEST(LEAST(b, ROUND(col, d)), -b) with b the configured bound in
its textual form and d its decimal scale; `bare` = the backquoted
column reference alone; `castChar` = cast to char with
newline/carriage-return/NUL stripped. -/
inductive SafeExpr where
  | hexStripNewline
  | hexTrimZeros
  | castUnsigned
  | dateNullif
  | datetimeNullif
  | tinyint1Bool
  | geoJson
  | rawHashHex
  | clamp (bound : String) (decimals : Nat)
  | bare
  | castChar
  deriving Repr, DecidableEq

/-- The ordered `CASE WHEN ... THEN ...` chain of `get_table_columns`
as a function of one column's name, data type and full column type,
plus the optional numeric bound `max_num`. The branch order is the
source order; `decimal_format` is the clamp template when `max_num`
is set and the bare column otherwise, and `integer_format` is always
the bare column when `max_num` is set (and equal to `decimal_format`
otherwise). -/
def safeSqlValue (max_num : Option String)
    (column_name data_type column_type : String) : SafeExpr :=
  if data_type ∈ ["blob", "tinyblob", "mediumblob", "longblob"] then
    SafeExpr.hexStripNewline
  else if data_type ∈ ["binary", "varbinary"] then
    SafeExpr.hexTrimZeros
  else if data_type ∈ ["bit"] then
    SafeExpr.castUnsigned
  else if data_type ∈ ["date"] then
    SafeExpr.dateNullif
  else if data_type ∈ ["datetime", "timestamp"] then
    SafeExpr.datetimeNullif
  else if column_type ∈ ["tinyint(1)"] then
    SafeExpr.tinyint1Bool
  else if column_type ∈ ["geometry", "point", "linestring", "polygon",
      "multipoint", "multilinestring", "multipolygon",
      "geometrycollection"] then
    SafeExpr.geoJson
  else if column_name = "raw_data_hash" then
    SafeExpr.rawHashHex
  else if data_type ∈ ["double", "numeric", "float", "decimal", "real"] then
    match max_num with
    | some b => SafeExpr.clamp b (decimalsOf b)
    | none => SafeExpr.bare
  else if data_type ∈ ["smallint", "integer", "bigint", "mediumint",
      "int"] then
    SafeExpr.bare
  else
    SafeExpr.castChar

/-- MySQL integer rounding half away from zero, on a rational. -/
def roundHalfAway (x : ℚ) : ℤ :=
  if 0 ≤ x then ⌊x + 1 / 2⌋ else ⌈x - 1 / 2⌉

/-- The value of the SQL expression ROUND(x, d): x rounded half away
from zero to d decimal places. -/
def mysqlRound (x : ℚ) (d : ℕ) : ℚ :=
  (roundHalfAway (x * 10 ^ d) : ℚ) / 10 ^ d

/-- The value of the generated clamp expression
GREATEST(LEAST(B, ROUND(x, d)), -B) on a column value x. -/
def clampEval (B : ℚ) (d : ℕ) (x : ℚ) : ℚ :=
  max (min B (mysqlRound x d)) (-B)

/-- One row of the `SHOW KEYS ... WHERE Key_name = PRIMARY` result, as
read by `get_primary_keys`: the `.get("Column_name")` value. -/
structure KeyRow where
  Column_name : Option String
  deriving Repr, DecidableEq

/-- `FastSyncTapMySql.get_primary_keys` after the `SHOW KEYS` query:
maps the name-safety transform `safe_column_name` (an external
collaborator, abstracted as the `safe` parameter) over the rows in
result order when there is at least one row, and returns `None`
(modelled `none`) otherwise. -/
def get_primary_keys (safe : Option String → String)
    (pk_specs : List KeyRow) : Option (List String) :=
  if pk_specs.length > 0 then
    some (pk_specs.map fun k => safe k.Column_name)
  else
    none

/-- The MariaDB GTID loop returns the first entry accepted by
`mariadbGtidMatch`. -/
theorem scanMariadbGtids_eq_find (sid : String) (l : List String) :
    scanMariadbGtids sid l = l.find? (mariadbGtidMatch sid) := by
  induction l with
  | nil => rfl
  | cons g rest ih =>
      simp only [scanMariadbGtids, List.find?, mariadbGtidMatch,
        List.getD_eq_getElem?_getD]
      by_cases h1 : g = ""
      · simp [h1, ih]
      · by_cases h2 : (pySplit '-' g).length = 3
        · have h2' : 1 < (pySplit '-' g).length := by omega
          by_cases h4 : (pySplit '-' g).get ⟨1, h2'⟩ = sid
          all_goals rw [List.get_eq_getElem] at h4
          · simp [h1, h2, List.getElem?_eq_getElem h2', h4]
          · have hc : ((pySplit '-' g)[1] == sid) = false :=
              beq_eq_false_iff_ne.mpr h4
            simp only [h1, h2, List.getElem?_eq_getElem h2', ih]
            simp [h1, hc, ih]
            exact fun hx => absurd hx h4
        · have hb : (((pySplit '-' g).length == 3) : Bool) = false := by
            simp [h2]
          simp [h1, h2, hb, ih]

/-- The MySQL GTID loop returns the first entry accepted by
`mysqlGtidMatch`. -/
theorem scanMysqlGtids_eq_find (uuid : String) (l : List String) :
    scanMysqlGtids uuid l = l.find? (mysqlGtidMatch uuid) := by
  induction l with
  | nil => rfl
  | cons g rest ih =>
      simp only [scanMysqlGtids, List.find?, mysqlGtidMatch,
        List.getD_eq_getElem?_getD]
      by_cases h1 : g = ""
      · simp [h1, ih]
      · by_cases h2 : (pySplit ':' g).length = 2
        · have h2' : 0 < (pySplit ':' g).length := by omega
          by_cases h4 : (pySplit ':' g).get ⟨0, h2'⟩ = uuid
          all_goals rw [List.get_eq_getElem] at h4
          · simp [h1, h2, List.getElem?_eq_getElem h2', h4]
          · have hc : ((pySplit ':' g)[0] == uuid) = false :=
              beq_eq_false_iff_ne.mpr h4
            simp only [h1, h2, List.getElem?_eq_getElem h2', ih]
            simp [h1, hc, ih]
            exact fun hx => absurd hx h4
        · have hb : (((pySplit ':' g).length == 2) : Bool) = false := by
            simp [h2]
          simp [h1, h2, hb, ih]

/-- Claim C1: for every GTID-set string, resolution returns the
earliest-listed well-formed entry whose server identifier matches the
target (the middle segment of a three-part dash-separated entry for
MariaDB, the first segment of a two-part colon-separated entry for
MySQL), and fails with the no-suitable-GTID error when no entry
matches; entries with the wrong segment count are never selected and
never block a later well-formed match. In particular, when exactly
one well-formed entry matches, that entry is returned. -/
theorem gtid_resolution_returns_first_wellformed_match
    (gtids server_id server_uuid : String) :
    find_mariadb_gtid_pos (some gtids) server_id =
      (match (gtidEntries gtids).find? (mariadbGtidMatch server_id) with
        | some g => Except.ok ⟨g⟩
        | none => Except.error "No suitable GTID was found.") ∧
    find_mysql_gtid_pos (some (some "ON")) (some gtids) server_uuid =
      (match (gtidEntries gtids).find? (mysqlGtidMatch server_uuid) with
        | some g => Except.ok ⟨g⟩
        | none => Except.error "No suitable GTID was found.") := by
  constructor
  · simp only [find_mariadb_gtid_pos, scanMariadbGtids_eq_find]
  · simp only [find_mysql_gtid_pos, scanMysqlGtids_eq_find]

/-- Claim C6: when no entry of the GTID set matches, resolution fails
with the no-suitable-GTID error (MariaDB and MySQL alike); when the
MariaDB position result is empty/absent it fails with the
GTID-not-enabled error; when the MySQL gtid_mode result reads
anything other than ON (including an empty result or an absent
field) it fails with the GTID-mode-not-enabled error; and the
no-suitable-GTID condition is distinct from both not-enabled
conditions. -/
theorem gtid_failure_conditions
    (gtidsA gtidsB sid uuid : String) (mode : Option (Option String))
    (execResult : Option String)
    (hA : (gtidEntries gtidsA).find? (mariadbGtidMatch sid) = none)
    (hB : (gtidEntries gtidsB).find? (mysqlGtidMatch uuid) = none)
    (hm : mode ≠ some (some "ON")) :
    find_mariadb_gtid_pos (some gtidsA) sid =
      Except.error "No suitable GTID was found." ∧
    find_mariadb_gtid_pos none sid =
      Except.error "GTID is not enabled." ∧
    find_mysql_gtid_pos mode execResult uuid =
      Except.error "GTID mode is not enabled." ∧
    find_mysql_gtid_pos (some (some "ON")) (some gtidsB) uuid =
      Except.error "No suitable GTID was found." ∧
    ("No suitable GTID was found." ≠ "GTID is not enabled." ∧
      "No suitable GTID was found." ≠ "GTID mode is not enabled.") := by
  refine ⟨?_, rfl, ?_, ?_, by decide⟩
  · simp only [find_mariadb_gtid_pos, scanMariadbGtids_eq_find, hA]
  · rcases mode with _ | o
    · rfl
    · rcases o with _ | v
      · rfl
      · by_cases hv : v = "ON"
        · exact absurd (by rw [hv]) hm
        · rw [find_mysql_gtid_pos.eq_def]
          split
          · rename_i heq
            exact absurd (by rw [(Option.some.injEq _ _).mp
              ((Option.some.injEq _ _).mp heq)]) hv
          · rfl
  · simp only [find_mysql_gtid_pos, scanMysqlGtids_eq_find, hB]

/-- Witness for `gtid_failure_conditions` at concrete inputs. -/
theorem gtid_failure_conditions_witness :
    find_mariadb_gtid_pos (some "0-1-100") "2" =
      Except.error "No suitable GTID was found." ∧
    find_mariadb_gtid_pos none "2" =
      Except.error "GTID is not enabled." ∧
    find_mysql_gtid_pos (some (some "OFF")) none "bbbb" =
      Except.error "GTID mode is not enabled." ∧
    find_mysql_gtid_pos (some (some "ON")) (some "aaaa:1-5") "bbbb" =
      Except.error "No suitable GTID was found." ∧
    ("No suitable GTID was found." ≠ "GTID is not enabled." ∧
      "No suitable GTID was found." ≠ "GTID mode is not enabled.") :=
  gtid_failure_conditions "0-1-100" "aaaa:1-5" "2" "bbbb"
    (some (some "OFF")) none (by decide) (by decide) (by decide)

/-- Claim C2: a connectivity-class failure with one retry remaining
causes exactly one silent close of both sessions, one reopen, and
one retried attempt, after which a succeeding second attempt returns
its result; with no retries remaining the failure propagates with no
reconnect event. -/
theorem query_retry_semantics {α : Type} (r : α)
    (outcome : Nat → Except QueryErr α) (conn : Option Session) (k : Nat)
    (h1 : outcome k = Except.error QueryErr.connectivity)
    (h2 : outcome (k + 1) = Except.ok r) :
    query outcome k conn 1 =
      (Except.ok r,
        [Event.attempt (conn.getD Session.default), Event.closeSilent,
          Event.reopen, Event.attempt Session.default]) ∧
    query outcome k conn 0 =
      (Except.error QueryErr.connectivity,
        [Event.attempt (conn.getD Session.default)]) := by
  constructor
  · simp [query, h1, h2]
  · simp [query, h1]

/-- Witness for `query_retry_semantics`: first attempt fails with a
connectivity error, second attempt succeeds. -/
theorem query_retry_semantics_witness :
    query (fun k => if k = 0 then Except.error QueryErr.connectivity
        else Except.ok (7 : Nat)) 0 none 1 =
      (Except.ok 7,
        [Event.attempt Session.default, Event.closeSilent,
          Event.reopen, Event.attempt Session.default]) ∧
    query (fun k => if k = 0 then Except.error QueryErr.connectivity
        else Except.ok (7 : Nat)) 0 none 0 =
      (Except.error QueryErr.connectivity,
        [Event.attempt Session.default]) :=
  query_retry_semantics 7
    (fun k => if k = 0 then Except.error QueryErr.connectivity
      else Except.ok (7 : Nat)) none 0 rfl rfl

/-- Claim C10: when a query targeting a non-default session hits a
connectivity failure with retries remaining, the retried call does
not forward the original session argument: the second attempt runs
on the (freshly reopened) buffered session, whatever session the
failed attempt targeted. -/
theorem query_retry_uses_buffered_session {α : Type} (r : α)
    (outcome : Nat → Except QueryErr α) (s : Session) (k n : Nat)
    (h1 : outcome k = Except.error QueryErr.connectivity)
    (h2 : outcome (k + 1) = Except.ok r) :
    query outcome k (some s) (n + 1) =
      ((query outcome (k + 1) none n).1,
        Event.attempt s :: Event.closeSilent :: Event.reopen ::
          (query outcome (k + 1) none n).2) ∧
    query outcome k (some s) (n + 1) =
      (Except.ok r,
        [Event.attempt s, Event.closeSilent, Event.reopen,
          Event.attempt Session.default]) := by
  have hq : query outcome (k + 1) none n =
      (Except.ok r, [Event.attempt Session.default]) := by
    cases n <;> simp [query, h2]
  constructor
  · simp [query, h1]
  · simp [query, h1, hq]

/-- Witness for `query_retry_uses_buffered_session`: the failed
attempt targets the unbuffered streaming session, the retried
attempt runs on the buffered session. -/
theorem query_retry_uses_buffered_session_witness :
    query (fun k => if k = 0 then Except.error QueryErr.connectivity
        else Except.ok (5 : Nat)) 0 (some Session.unbuffered) 1 =
      ((query (fun k => if k = 0 then Except.error QueryErr.connectivity
          else Except.ok (5 : Nat)) 1 none 0).1,
        Event.attempt Session.unbuffered :: Event.closeSilent ::
          Event.reopen ::
          (query (fun k => if k = 0 then Except.error QueryErr.connectivity
            else Except.ok (5 : Nat)) 1 none 0).2) ∧
    query (fun k => if k = 0 then Except.error QueryErr.connectivity
        else Except.ok (5 : Nat)) 0 (some Session.unbuffered) 1 =
      (Except.ok 5,
        [Event.attempt Session.unbuffered, Event.closeSilent,
          Event.reopen, Event.attempt Session.default]) :=
  query_retry_uses_buffered_session 5
    (fun k => if k = 0 then Except.error QueryErr.connectivity
      else Except.ok (5 : Nat)) Session.unbuffered 0 0 rfl rfl

/-- Claim C3: with all replica fields set, resolving without
prioritizing the primary yields the replica host, port, user and
password with the replica flag set; resolving with the primary
prioritized yields the primary fields with the flag clear for every
configuration, replica fields present or not. The embedding is a
plain function of the configuration, so the operation is pure. -/
theorem get_connection_parameters_spec
    (cfg cfg2 : ConnectionConfig) (h : String) (p : Int) (u pw : String)
    (hh : cfg.replica_host = some h) (hp : cfg.replica_port = some p)
    (hu : cfg.replica_user = some u)
    (hpw : cfg.replica_password = some pw) :
    get_connection_parameters cfg false =
      (⟨h, p, u, pw, cfg.charset⟩, true) ∧
    get_connection_parameters cfg2 true =
      (⟨cfg2.host, cfg2.port, cfg2.user, cfg2.password, cfg2.charset⟩,
        false) := by
  constructor
  · simp [get_connection_parameters, hh, hp, hu, hpw]
  · rfl

/-- Witness for `get_connection_parameters_spec` on a concrete
configuration with replica overrides. -/
theorem get_connection_parameters_spec_witness :
    get_connection_parameters
      ⟨"primary.db", 3306, "root", "pw",
        some "replica.db", some 3307, some "ro", some "rpw", "utf8"⟩
      false =
        (⟨"replica.db", 3307, "ro", "rpw", "utf8"⟩, true) ∧
    get_connection_parameters
      ⟨"primary.db", 3306, "root", "pw",
        some "replica.db", some 3307, some "ro", some "rpw", "utf8"⟩
      true =
        (⟨"primary.db", 3306, "root", "pw", "utf8"⟩, false) :=
  get_connection_parameters_spec
    ⟨"primary.db", 3306, "root", "pw",
      some "replica.db", some 3307, some "ro", some "rpw", "utf8"⟩
    ⟨"primary.db", 3306, "root", "pw",
      some "replica.db", some 3307, some "ro", some "rpw", "utf8"⟩
    "replica.db" 3307 "ro" "rpw" rfl rfl rfl rfl

/-- Counterexample to the claim that the auxiliary connection opened
during primary-id/uuid resolution is closed on every failure path:
when both attempts of the underlying query call fail with a
connectivity error, the call raises, and the auxiliary connection
opened on the replica is never closed. -/
theorem aux_connection_close_counterexample :
    (get_primary_server_uuid true
        (fun _ => Except.error QueryErr.connectivity)).1 =
      Except.error (RunErr.query QueryErr.connectivity) ∧
    (get_primary_server_uuid true
        (fun _ => Except.error QueryErr.connectivity)).2.opened = true ∧
    (get_primary_server_uuid true
        (fun _ => Except.error QueryErr.connectivity)).2.closed = false ∧
    (get_primary_server_id true
        (fun _ => Except.error QueryErr.connectivity)).2.opened = true ∧
    (get_primary_server_id true
        (fun _ => Except.error QueryErr.connectivity)).2.closed = false :=
  ⟨rfl, rfl, rfl, rfl, rfl⟩

/-- Claim C5 (amended): the auxiliary connection opened during
primary-id/uuid resolution is closed before the enclosing call
returns whenever the underlying query call returns a result (the
success path, and the empty-result path on which indexing the result
raises afterwards); when the query call itself raises, the
connection is not closed. -/
theorem aux_connection_closed_when_query_returns
    (is_replica : Bool)
    (outU : Nat → Except QueryErr (Option String))
    (outI : Nat → Except QueryErr (Option Int))
    (rowsU : Option String) (rowsI : Option Int)
    (hU : (query outU 0 (if is_replica then some Session.aux else none)
        1).1 = Except.ok rowsU)
    (hI : (query outI 0 (if is_replica then some Session.aux else none)
        1).1 = Except.ok rowsI) :
    (get_primary_server_uuid is_replica outU).2 =
      ⟨is_replica, is_replica⟩ ∧
    (get_primary_server_id is_replica outI).2 =
      ⟨is_replica, is_replica⟩ := by
  constructor
  · show (match (query outU 0
        (if is_replica then some Session.aux else none) 1).1 with
      | Except.error e =>
          (Except.error (RunErr.query e),
            (⟨is_replica, false⟩ : AuxTrace))
      | Except.ok rows =>
          match rows with
          | none =>
              (Except.error RunErr.indexError,
                (⟨is_replica, is_replica⟩ : AuxTrace))
          | some u => (Except.ok u, ⟨is_replica, is_replica⟩)).2 =
      ⟨is_replica, is_replica⟩
    rw [hU]
    cases rowsU <;> rfl
  · show (match (query outI 0
        (if is_replica then some Session.aux else none) 1).1 with
      | Except.error e =>
          (Except.error (RunErr.query e),
            (⟨is_replica, false⟩ : AuxTrace))
      | Except.ok rows =>
          match rows with
          | none =>
              (Except.error RunErr.indexError,
                (⟨is_replica, is_replica⟩ : AuxTrace))
          | some i => (Except.ok i, ⟨is_replica, is_replica⟩)).2 =
      ⟨is_replica, is_replica⟩
    rw [hI]
    cases rowsI <;> rfl

/-- Witness for `aux_connection_closed_when_query_returns`: on a
replica, with the queries succeeding on the first attempt, the
auxiliary connection is opened and closed. -/
theorem aux_connection_closed_when_query_returns_witness :
    (get_primary_server_uuid true
        (fun _ => Except.ok (some "36f75bbe"))).2 = ⟨true, true⟩ ∧
    (get_primary_server_id true (fun _ => Except.ok (some 1774983))).2 =
      ⟨true, true⟩ :=
  aux_connection_closed_when_query_returns true
    (fun _ => Except.ok (some "36f75bbe"))
    (fun _ => Except.ok (some 1774983))
    (some "36f75bbe") (some 1774983) rfl rfl

/-- Claim C8: with GTID mode off, on a primary connection whose
status query returns the single row with File binlog.000002 and
Position 914 and no version field, the current log position is that
binlog coordinate with version defaulting to 1; with an empty status
result the call fails with the binary-logging-not-enabled error (on
the replica and the primary paths alike, for either engine). -/
theorem fetch_current_log_pos_binlog_scenario (is_mariadb : Bool) :
    fetch_current_log_pos false is_mariadb false
      ⟨none, none, none, none, 0, "",
        [⟨some "binlog.000002", some 914, none, none, none⟩]⟩ =
      Except.ok
        (LogPosition.binlog ⟨some "binlog.000002", some 914, 1⟩) ∧
    (∀ is_replica : Bool,
      fetch_current_log_pos false is_mariadb is_replica
        ⟨none, none, none, none, 0, "", []⟩ =
        Except.error "MySQL binary logging is not enabled.") := by
  refine ⟨rfl, ?_⟩
  intro is_replica
  cases is_replica <;> rfl

/-- Claim C9: a session-initialization statement the server rejects
(raising InternalError, the class the handler catches) adds a
non-fatal warning and never aborts the run: every statement in the
list is attempted on the buffered session, and on the unbuffered
session as well whenever its buffered run did not raise; the
warnings are exactly one message per rejected statement, in order. -/
theorem run_session_sqls_nonfatal
    (behavior : String → Session → SqlOutcome) (sqls : List String) :
    (run_session_sqls behavior sqls).executed =
      sqls.flatMap (fun s =>
        match behavior s Session.default with
        | SqlOutcome.internalError => [(s, Session.default)]
        | SqlOutcome.ok =>
            [(s, Session.default), (s, Session.unbuffered)]) ∧
    (run_session_sqls behavior sqls).warnings =
      (sqls.filter fun s =>
        match behavior s Session.default with
        | SqlOutcome.internalError => true
        | SqlOutcome.ok =>
            behavior s Session.unbuffered == SqlOutcome.internalError).map
        sessionWarning := by
  induction sqls with
  | nil => exact ⟨rfl, rfl⟩
  | cons sql rest ih =>
      cases hb : behavior sql Session.default
      · cases hb2 : behavior sql Session.unbuffered <;>
          simp [run_session_sqls, List.flatMap_cons, List.filter_cons,
            hb, hb2, ih.1, ih.2]
      · simp [run_session_sqls, List.flatMap_cons, List.filter_cons,
          hb, ih.1, ih.2]

/-- Claim C7: the primary-key query result is mapped to the
name-safety transform of each Column_name value, preserving the
index-column order (the element at every index i is the transform of
the i-th row), and a table with no PRIMARY key rows yields the
absent result. -/
theorem get_primary_keys_ordered (safe : Option String → String)
    (specs : List KeyRow) (i : Nat)
    (hne : specs ≠ []) (hi : i < specs.length) :
    get_primary_keys safe specs =
      some (specs.map fun k => safe k.Column_name) ∧
    (specs.map fun k => safe k.Column_name).getD i "" =
      safe (specs.getD i ⟨none⟩).Column_name ∧
    get_primary_keys safe [] = none := by
  refine ⟨?_, ?_, rfl⟩
  · have hpos : 0 < specs.length := List.length_pos.mpr hne
    simp [get_primary_keys, hpos]
  · have hmap : i < (specs.map fun k => safe k.Column_name).length := by
      simpa using hi
    rw [List.getD_eq_getElem?_getD, List.getElem?_eq_getElem hmap,
      List.getD_eq_getElem?_getD, List.getElem?_eq_getElem hi]
    simp

/-- Witness for `get_primary_keys_ordered` on a two-column primary
key. -/
theorem get_primary_keys_ordered_witness :
    get_primary_keys (fun o => o.getD "") [⟨some "id"⟩, ⟨some "ord"⟩] =
      some ["id", "ord"] ∧
    (["id", "ord"] : List String).getD 1 "" = "ord" ∧
    get_primary_keys (fun o => o.getD "") [] = none :=
  get_primary_keys_ordered (fun o => o.getD "")
    [⟨some "id"⟩, ⟨some "ord"⟩] 1 (by decide) (by decide)

/-- Claim C4: with a numeric bound configured, the safe SQL
expression generated for a column whose data type is in the
floating/fixed numeric family is the clamp template parameterized by
the bound and the bound's own decimal scale (digits after the
decimal point of its textual form, 0 if none), while a column in the
integer family gets the bare column reference; semantically the
clamp expression keeps every value inside [-B, B] and coincides with
plain rounding to the bound's scale whenever that rounding is within
bounds. The earlier branches of the rule chain (geometry column
types, the literal tinyint(1) column type, the raw_data_hash column
name) are excluded by hypothesis, as they take precedence by the
first-match-wins order. -/
theorem numeric_bound_clamp
    (maxNum column_name data_type data_type2 column_type : String)
    (B x y : ℚ) (d : Nat)
    (hdec : data_type ∈ ["double", "numeric", "float", "decimal", "real"])
    (hint : data_type2 ∈
      ["smallint", "integer", "bigint", "mediumint", "int"])
    (hgeo : column_type ∉ ["geometry", "point", "linestring", "polygon",
      "multipoint", "multilinestring", "multipolygon",
      "geometrycollection"])
    (hti : column_type ≠ "tinyint(1)")
    (hname : column_name ≠ "raw_data_hash")
    (hB : 0 ≤ B) (hy : |mysqlRound y d| ≤ B) :
    safeSqlValue (some maxNum) column_name data_type column_type =
      SafeExpr.clamp maxNum (decimalsOf maxNum) ∧
    safeSqlValue (some maxNum) column_name data_type2 column_type =
      SafeExpr.bare ∧
    -B ≤ clampEval B d x ∧ clampEval B d x ≤ B ∧
    clampEval B d y = mysqlRound y d := by
  refine ⟨?_, ?_, ?_, ?_, ?_⟩
  · fin_cases hdec <;> simp [safeSqlValue, hgeo, hti, hname]
  · fin_cases hint <;> simp [safeSqlValue, hgeo, hti, hname]
  · exact le_max_right _ _
  · exact max_le (le_trans (min_le_left _ _) le_rfl) (neg_le_self hB)
  · obtain ⟨hy1, hy2⟩ := abs_le.mp hy
    show max (min B (mysqlRound y d)) (-B) = mysqlRound y d
    rw [min_eq_right hy2, max_eq_left hy1]

/-- Witness for `numeric_bound_clamp` with the textual bound 100.00
(decimal scale 2) and concrete column values. -/
theorem numeric_bound_clamp_witness :
    safeSqlValue (some "100.00") "amount" "decimal" "decimal(10,2)" =
      SafeExpr.clamp "100.00" 2 ∧
    safeSqlValue (some "100.00") "amount" "bigint" "bigint(20)" =
      SafeExpr.bare ∧
    -(100 : ℚ) ≤ clampEval 100 0 12345 ∧ clampEval 100 0 12345 ≤ 100 ∧
    clampEval 100 0 3 = mysqlRound 3 0 :=
  numeric_bound_clamp "100.00" "amount" "decimal" "bigint"
    "decimal(10,2)" 100 12345 3 0
    (by decide) (by decide) (by decide) (by decide) (by decide)
    (by norm_num)
    (by norm_num [mysqlRound, roundHalfAway])

end TapMySql
